import Mathlib

/-
  Verification of the secure-messaging core of the ephemeral chat
  repository: the double-ratchet worker (cryptoWorker.js) and the
  network framer / peer verifier (NetworkManager).

  The cryptographic primitives (libsodium) are modelled symbolically:
  key derivation, key exchange, AEAD and detached signatures are free
  constructors, so two derived keys are equal exactly when they were
  derived from equal inputs, an AEAD ciphertext opens exactly under
  the key and nonce it was sealed with, and a detached signature
  verifies exactly under the public key matching the signing secret.
  JSON serialization round-trips are the identity at this level.
-/

set_option maxRecDepth 8000

/-- Decidable equality of `Except` results, so that claims can be
evaluated on concrete runs. -/
instance {ε α : Type} [DecidableEq ε] [DecidableEq α] :
    DecidableEq (Except ε α) := fun x y =>
  match x, y with
  | .ok a, .ok b =>
    if h : a = b then .isTrue (by rw [h])
    else .isFalse (by intro hc; injection hc; exact h (by assumption))
  | .error a, .error b =>
    if h : a = b then .isTrue (by rw [h])
    else .isFalse (by intro hc; injection hc; exact h (by assumption))
  | .ok _, .error _ => .isFalse (by intro hc; injection hc)
  | .error _, .ok _ => .isFalse (by intro hc; injection hc)

namespace CryptoWorker

/-- An X25519 public key, identified by the seed of the keypair it
belongs to (crypto_kx_keypair output). -/
inductive PubKey where
  | kx : Nat → PubKey
deriving DecidableEq, Repr

/-- Symbolic 32-byte secret key material.  `kxRx s p` is the `rx`
session subkey of crypto_kx_client_session_keys for the local keypair
with seed `s` against remote public key `p`; `kdf i ctx k` is
crypto_kdf_derive_from_key(32, i, ctx, k). -/
inductive Key where
  | raw : Nat → Key
  | kxRx : Nat → PubKey → Key
  | kdf : Nat → String → Key → Key
deriving DecidableEq, Repr

/-- A crypto_kx keypair, identified by its generation seed. -/
structure KeyPair where
  seed : Nat
deriving DecidableEq, Repr

def KeyPair.publicKey (kp : KeyPair) : PubKey := .kx kp.seed

/-- The plaintext object built by encryptMessage before
JSON.stringify: content, jittered timestamp, counter, sender DH pub. -/
structure Message where
  content : List Nat
  timestamp : Int
  counter : Nat
  dhKey : PubKey
deriving DecidableEq, Repr

/-- A symbolic AEAD ciphertext
(crypto_aead_xchacha20poly1305_ietf_encrypt of `msg` under `key` and
`nonce`). -/
structure Cipher where
  key : Key
  nonce : Nat
  msg : Message
deriving DecidableEq, Repr

/-- A symbolic detached signature (crypto_sign_detached): carries the
seed of the signing keypair and the signed bytes. -/
structure Sig where
  signerSeed : Nat
  signed : Cipher
deriving DecidableEq, Repr

/-- The wire envelope produced by encryptMessage:
{ nonce, cipher, sig }. -/
structure Envelope where
  nonce : Nat
  cipher : Cipher
  sig : Sig
deriving DecidableEq, Repr

def crypto_sign_detached (c : Cipher) (signerSeed : Nat) : Sig :=
  ⟨signerSeed, c⟩

def crypto_sign_verify_detached (s : Sig) (c : Cipher) (pk : PubKey) : Bool :=
  decide (s.signed = c ∧ PubKey.kx s.signerSeed = pk)

def crypto_aead_encrypt (m : Message) (nonce : Nat) (key : Key) : Cipher :=
  ⟨key, nonce, m⟩

def crypto_aead_decrypt (c : Cipher) (nonce : Nat) (key : Key) : Option Message :=
  if c.key = key ∧ c.nonce = nonce then some c.msg else none

/-- RATCHET_MESSAGES = 100 (messages before DH ratchet rotation). -/
def RATCHET_MESSAGES : Nat := 100

/-- The DoubleRatchet state after `initialize` has run: all chain
keys exist; the remote public key may still be unknown.  The replay
set `seenMessages` holds the (counter, timestamp) pairs of accepted
messages (the source stores the string `counter-timestamp`). -/
structure RatchetState where
  rootKey : Key
  sendingKey : Key
  receivingKey : Key
  dhKeyPair : KeyPair
  remotePublicKey : Option PubKey
  messagesSent : Nat
  messagesReceived : Nat
  seenMessages : List (Nat × Int)
deriving DecidableEq, Repr

/-- deriveMessageKey(key, counter) =
crypto_kdf_derive_from_key(32, counter, "msg", key). -/
def deriveMessageKey (key : Key) (counter : Nat) : Key :=
  .kdf counter "msg" key

/-- The body of rotateRatchet once the remote public key is in hand:
generate a fresh keypair (seed `freshSeed`), run
crypto_kx_client_session_keys against `remotePub`, take its `rx` as
the new root, re-derive both chain keys, reset both counters.  The
replay set and the stored remote public key are untouched. -/
def rotateWith (st : RatchetState) (remotePub : PubKey) (freshSeed : Nat) :
    RatchetState :=
  let newRoot : Key := .kxRx freshSeed remotePub
  { st with
    dhKeyPair := ⟨freshSeed⟩
    rootKey := newRoot
    sendingKey := .kdf 1 "sending" newRoot
    receivingKey := .kdf 2 "receiving" newRoot
    messagesSent := 0
    messagesReceived := 0 }

/-- rotateRatchet reads this.remotePublicKey; with no remote key the
key exchange primitive fails. -/
def rotateRatchet (st : RatchetState) (freshSeed : Nat) :
    Option RatchetState :=
  st.remotePublicKey.map (fun rp => rotateWith st rp freshSeed)

/-- encryptMessage(plaintext, isKeepalive).  Nondeterministic inputs
are passed explicitly: `freshSeed` seeds the keypair generated if a
rotation fires, `nonce` is the random AEAD nonce, `timestamp` is the
jittered clock reading.  Returns none only when a rotation is needed
but no remote public key is known. -/
def encryptMessage (st : RatchetState) (plaintext : List Nat)
    (isKeepalive : Bool) (freshSeed : Nat) (nonce : Nat)
    (timestamp : Int) : Option (Envelope × RatchetState) :=
  let rotated : Option RatchetState :=
    if isKeepalive = false ∧ RATCHET_MESSAGES ≤ st.messagesSent then
      rotateRatchet st freshSeed
    else
      some st
  match rotated with
  | none => none
  | some st1 =>
    let messageKey := deriveMessageKey st1.sendingKey st1.messagesSent
    let message : Message :=
      { content := plaintext
        timestamp := timestamp
        counter := st1.messagesSent
        dhKey := st1.dhKeyPair.publicKey }
    let cipher := crypto_aead_encrypt message nonce messageKey
    let sig := crypto_sign_detached cipher st1.dhKeyPair.seed
    let envelope : Envelope := ⟨nonce, cipher, sig⟩
    let st2 :=
      if isKeepalive = false then
        { st1 with messagesSent := st1.messagesSent + 1 }
      else st1
    some (envelope, st2)

/-- The distinct failure points of decryptMessage, in source order:
a missing remote key makes the signature primitive throw, then
signature verification, then AEAD opening, then the replay check. -/
inductive DecryptError where
  | missingRemoteKey
  | invalidSignature
  | aeadFailure
  | replay
deriving DecidableEq, Repr

/-- decryptMessage(envelope).  `freshSeed` seeds the keypair of the
rotation triggered when the embedded dhKey differs from the stored
remote public key. -/
def decryptMessage (st : RatchetState) (env : Envelope) (freshSeed : Nat) :
    Except DecryptError (List Nat × RatchetState) :=
  match st.remotePublicKey with
  | none => .error .missingRemoteKey
  | some rp =>
    if crypto_sign_verify_detached env.sig env.cipher rp = false then
      .error .invalidSignature
    else
      let messageKey := deriveMessageKey st.receivingKey st.messagesReceived
      match crypto_aead_decrypt env.cipher env.nonce messageKey with
      | none => .error .aeadFailure
      | some message =>
        if (message.counter, message.timestamp) ∈ st.seenMessages then
          .error .replay
        else
          let st1 := { st with
            seenMessages := (message.counter, message.timestamp) :: st.seenMessages }
          let st2 :=
            if message.dhKey = rp then st1
            else
              rotateWith { st1 with remotePublicKey := some message.dhKey }
                message.dhKey freshSeed
          let st3 := { st2 with messagesReceived := st2.messagesReceived + 1 }
          .ok (message.content, st3)

/-- sodium.randombytes_buf(n) with the random source `r`. -/
def randombytes_buf (n : Nat) (r : Nat → Nat) : List Nat :=
  (List.range n).map r

/-- One tick of the startKeepAlive interval: draw 32 random bytes and
encrypt them with isKeepalive = true. -/
def keepAliveTick (st : RatchetState) (r : Nat → Nat) (freshSeed : Nat)
    (nonce : Nat) (timestamp : Int) : Option (Envelope × RatchetState) :=
  encryptMessage st (randombytes_buf 32 r) true freshSeed nonce timestamp

/-- A concrete sender state used to evaluate the claims: chain keys
are opaque initial keys, the local keypair has seed 3, the peer
keypair seed 9. -/
def exSender : RatchetState :=
  { rootKey := .raw 0
    sendingKey := .raw 1
    receivingKey := .raw 2
    dhKeyPair := ⟨3⟩
    remotePublicKey := some (.kx 9)
    messagesSent := 0
    messagesReceived := 0
    seenMessages := [] }

/-- The matching receiver: its receiving chain key mirrors the
sending chain key of the sender, whose public key it has stored. -/
def exReceiver : RatchetState :=
  { rootKey := .raw 10
    sendingKey := .raw 11
    receivingKey := .raw 1
    dhKeyPair := ⟨9⟩
    remotePublicKey := some (.kx 3)
    messagesSent := 0
    messagesReceived := 0
    seenMessages := [] }

/-- The mirrored receiver whose replay set already holds the id pair
(0, 5). -/
def exReceiverSeen : RatchetState :=
  { exReceiver with seenMessages := [(0, 5)] }

/-- The ciphertext of plaintext [7] sealed by `exSender` at counter 0
with nonce 11 and jittered timestamp 5. -/
def exCipher : Cipher :=
  crypto_aead_encrypt ⟨[7], 5, 0, .kx 3⟩ 11 (deriveMessageKey (.raw 1) 0)

/-- The envelope produced by `encryptMessage exSender [7]` with nonce
11 and timestamp 5. -/
def exEnv : Envelope := ⟨11, exCipher, crypto_sign_detached exCipher 3⟩

/-- `exReceiver` after accepting `exEnv`: the id pair is recorded and
the receive counter has advanced. -/
def exReceiverAfter : RatchetState :=
  { exReceiver with seenMessages := [(0, 5)], messagesReceived := 1 }

end CryptoWorker

/-
  Buffer-level model of the worker, for the zeroization claims.
  Keys live in heap buffers addressed by naturals; the ratchet object
  holds buffer addresses.  `memzero` (sodium.memzero, wrapped by
  DoubleRatchet.wipeKey) overwrites a buffer with zeros in place;
  reassigning a field allocates fresh buffers and leaves the old ones
  untouched, exactly as the JS garbage-collected arrays behave.
-/

namespace WorkerMem

open CryptoWorker

/-- What a key buffer holds: live key material or the all-zero bytes
left behind by sodium.memzero. -/
inductive BufVal where
  | key : Key → BufVal
  | pub : PubKey → BufVal
  | priv : Nat → BufVal
  | zeros : BufVal
deriving DecidableEq, Repr

/-- Point update of the heap. -/
def setMem (m : Nat → BufVal) (a : Nat) (v : BufVal) : Nat → BufVal :=
  fun b => if b = a then v else m b

/-- The DoubleRatchet fields as buffer addresses, plus the remote
public key value and the counters. -/
structure BRatchet where
  rootKey : Nat
  sendingKey : Nat
  receivingKey : Nat
  dhPub : Nat
  dhPriv : Nat
  remotePublicKey : PubKey
  messagesSent : Nat
  messagesReceived : Nat
deriving DecidableEq, Repr

/-- The worker heap: the ratchet object, the buffer store, and a
bump allocator for fresh buffers. -/
structure BWorld where
  ratchet : BRatchet
  mem : Nat → BufVal
  nextAddr : Nat

/-- Allocate a fresh buffer holding `v`. -/
def alloc (w : BWorld) (v : BufVal) : Nat × BWorld :=
  (w.nextAddr,
   { w with mem := setMem w.mem w.nextAddr v, nextAddr := w.nextAddr + 1 })

/-- DoubleRatchet.wipeKey(key): sodium.memzero on the buffer. -/
def wipeKey (w : BWorld) (a : Nat) : BWorld :=
  { w with mem := setMem w.mem a .zeros }

/-- rotateRatchet at the buffer level: crypto_kx_keypair allocates a
fresh public and private key buffer, crypto_kx_client_session_keys
allocates the rx buffer that becomes the new root, and the two
crypto_kdf_derive_from_key calls allocate the new chain-key buffers.
The field addresses are reassigned and the counters reset.  No call
to wipeKey appears in the source body, so the buffers previously
addressed by rootKey, sendingKey and receivingKey keep their
contents. -/
def rotateRatchet (w : BWorld) (freshSeed : Nat) : BWorld :=
  let rp := w.ratchet.remotePublicKey
  let (pubA, w1) := alloc w (.pub (.kx freshSeed))
  let (privA, w2) := alloc w1 (.priv freshSeed)
  let newRoot : Key := .kxRx freshSeed rp
  let (rootA, w3) := alloc w2 (.key newRoot)
  let (sendA, w4) := alloc w3 (.key (.kdf 1 "sending" newRoot))
  let (recvA, w5) := alloc w4 (.key (.kdf 2 "receiving" newRoot))
  { w5 with ratchet := { w5.ratchet with
      dhPub := pubA
      dhPriv := privA
      rootKey := rootA
      sendingKey := sendA
      receivingKey := recvA
      messagesSent := 0
      messagesReceived := 0 } }

/-- The cleanup RPC case: wipeKey on rootKey, sendingKey and
receivingKey.  The DH keypair buffers are not touched. -/
def cleanup (w : BWorld) : BWorld :=
  let w1 := wipeKey w w.ratchet.rootKey
  let w2 := wipeKey w1 w1.ratchet.sendingKey
  wipeKey w2 w2.ratchet.receivingKey

/-- A concrete initialized world used to evaluate the zeroization
claims: five distinct buffers hold the root key, the two chain keys
and the DH keypair. -/
def exWorld : BWorld :=
  { ratchet :=
      { rootKey := 0
        sendingKey := 1
        receivingKey := 2
        dhPub := 3
        dhPriv := 4
        remotePublicKey := .kx 9
        messagesSent := 100
        messagesReceived := 100 }
    mem := fun a =>
      if a = 0 then .key (.raw 0)
      else if a = 1 then .key (.kdf 1 "sending" (.raw 0))
      else if a = 2 then .key (.kdf 2 "receiving" (.raw 0))
      else if a = 3 then .pub (.kx 5)
      else if a = 4 then .priv 5
      else .zeros
    nextAddr := 5 }

end WorkerMem

/-
  Model of the NetworkManager (later variant, with the 4-byte length
  prefix framer): packet padding and unpadding, the room-PSK peer
  verifier, and the inbound dispatch.
-/

namespace NetworkMgr

/-- Big-endian 4-byte encoding written by Buffer.writeUInt32BE; the
JS call throws once the value reaches 2^32, so the claims carry that
bound as a hypothesis. -/
def writeUInt32BE (n : Nat) : List Nat :=
  [n / 2 ^ 24 % 256, n / 2 ^ 16 % 256, n / 2 ^ 8 % 256, n % 256]

/-- Buffer.readUInt32BE(0). -/
def readUInt32BE (data : List Nat) : Nat :=
  data.getD 0 0 * 2 ^ 24 + data.getD 1 0 * 2 ^ 16 +
    data.getD 2 0 * 2 ^ 8 + data.getD 3 0

/-- PACKET_SIZE = 256. -/
def PACKET_SIZE : Nat := 256

/-- padPacket(data): 4-byte big-endian length prefix, the payload,
then zero bytes up to the next multiple of PACKET_SIZE. -/
def padPacket (data : List Nat) : List Nat :=
  let totalLength := 4 + data.length
  let paddedLength := (totalLength + PACKET_SIZE - 1) / PACKET_SIZE * PACKET_SIZE
  writeUInt32BE data.length ++ data ++
    List.replicate (paddedLength - totalLength) 0

/-- removePacketPadding(data): reject frames shorter than the prefix,
reject a declared length exceeding the bytes available after the
prefix, otherwise return exactly the declared payload. -/
def removePacketPadding (data : List Nat) : Except String (List Nat) :=
  if data.length < 4 then
    .error "Invalid packet: too short for length prefix"
  else
    let length := readUInt32BE data
    if data.length - 4 < length then
      .error "Invalid packet: length prefix exceeds data size"
    else
      .ok ((data.drop 4).take length)

/-- An HMAC tag (crypto_auth): free constructor over key and
message. -/
inductive Tag where
  | hmac : List Nat → List Nat → Tag
deriving DecidableEq, Repr

def crypto_auth (message : List Nat) (psk : List Nat) : Tag :=
  .hmac psk message

def crypto_auth_verify (t : Tag) (message : List Nat)
    (psk : List Nat) : Bool :=
  decide (t = .hmac psk message)

/-- The decoded control and application messages dispatched by
handleIncomingData, keyed by their type string. -/
inductive NetMsg where
  | verificationChallenge : List Nat → NetMsg
  | verificationResponse : Tag → NetMsg
  | verificationSuccess : Int → NetMsg
  | keepalive : Int → NetMsg
  | keepaliveAck : Int → NetMsg
  | appMessage : Nat → NetMsg
deriving DecidableEq, Repr

/-- Is the decoded type one of the two verification messages the
dispatcher handles before the verified-peer gate? -/
def NetMsg.isVerificationMsg : NetMsg → Bool
  | .verificationChallenge _ => true
  | .verificationResponse _ => true
  | _ => false

/-- The NetworkManager connection state touched by the dispatcher:
socket set, verified-peer set, pending challenges, connected flag,
room PSK. -/
structure NMState where
  sockets : List Nat
  verifiedPeers : List Nat
  pendingVerifications : List (Nat × List Nat)
  isConnected : Bool
  roomPSK : List Nat
deriving DecidableEq, Repr

/-- Observable actions of the dispatcher: a socket write of a padded
control frame, or delivery to the onMessage callback. -/
inductive NMEffect where
  | write : Nat → NetMsg → NMEffect
  | deliver : NetMsg → NMEffect
deriving DecidableEq, Repr

/-- handlePeerDisconnect: drop the socket; when it was the last one,
clear the connected flag (the reconnect timer is outside this
model). -/
def handlePeerDisconnect (st : NMState) (sock : Nat) : NMState :=
  let socks := st.sockets.erase sock
  { st with
    sockets := socks
    verifiedPeers := st.verifiedPeers
    isConnected := if socks.isEmpty then false else st.isConnected }

/-- verifyPeer(socket, challenge, response): look up the pending
challenge, clear it, check the HMAC against the room PSK; on success
record the peer as verified and send verification_success. -/
def verifyPeer (st : NMState) (sock : Nat) (response : Tag)
    (now : Int) : Bool × NMState × List NMEffect :=
  match (st.pendingVerifications.find? (fun p => p.1 = sock)) with
  | none => (false, st, [])
  | some pending =>
    let st1 := { st with
      pendingVerifications :=
        st.pendingVerifications.filter (fun p => p.1 ≠ sock) }
    if crypto_auth_verify response pending.2 st.roomPSK then
      (true,
       { st1 with
         verifiedPeers := sock :: st1.verifiedPeers
         sockets := sock :: st1.sockets
         isConnected := true },
       [.write sock (.verificationSuccess now)])
    else
      (false, st1, [])

/-- handleVerificationChallenge: answer with the HMAC of the
challenge under the room PSK. -/
def handleVerificationChallenge (st : NMState) (sock : Nat)
    (challenge : List Nat) : List NMEffect :=
  [.write sock (.verificationResponse (crypto_auth challenge st.roomPSK))]

/-- handleKeepAlive: answer with keepalive_ack carrying the current
clock. -/
def handleKeepAlive (sock : Nat) (now : Int) : List NMEffect :=
  [.write sock (.keepaliveAck now)]

/-- The dispatch of handleIncomingData after parsing, in source
order: the two verification types first, then the verified-peer gate
(unverified traffic is dropped), then keep-alives, then delivery to
the onMessage callback. -/
def handleIncomingMessage (st : NMState) (sock : Nat) (m : NetMsg)
    (now : Int) : NMState × List NMEffect :=
  match m with
  | .verificationChallenge ch =>
    (st, handleVerificationChallenge st sock ch)
  | .verificationResponse resp =>
    let r := verifyPeer st sock resp now
    if r.1 then (r.2.1, r.2.2)
    else (handlePeerDisconnect r.2.1 sock, r.2.2)
  | m =>
    if sock ∈ st.verifiedPeers then
      match m with
      | .keepalive _ => (st, handleKeepAlive sock now)
      | m => (st, [.deliver m])
    else
      (st, [])

/-- handleIncomingData(data, socket): unframe, JSON-parse (modelled
by the `decode` parameter; a parse failure is caught and dropped),
then dispatch. -/
def handleIncomingData (st : NMState) (sock : Nat) (data : List Nat)
    (decode : List Nat → Option NetMsg) (now : Int) :
    NMState × List NMEffect :=
  match removePacketPadding data with
  | .error _ => (st, [])
  | .ok payload =>
    match decode payload with
    | none => (st, [])
    | some m => handleIncomingMessage st sock m now

/-- A concrete NetworkManager state with no verified peers, used to
evaluate the unverified-drop claim. -/
def exNM : NMState :=
  { sockets := [0]
    verifiedPeers := []
    pendingVerifications := []
    isConnected := false
    roomPSK := [1] }

end NetworkMgr

namespace CryptoWorker

theorem encryptMessage_eq_of_low (st : RatchetState) (p : List Nat)
    (fs nonce : Nat) (ts : Int)
    (hlow : st.messagesSent < RATCHET_MESSAGES) :
    encryptMessage st p false fs nonce ts =
      some (⟨nonce,
             crypto_aead_encrypt ⟨p, ts, st.messagesSent, st.dhKeyPair.publicKey⟩
               nonce (deriveMessageKey st.sendingKey st.messagesSent),
             crypto_sign_detached
               (crypto_aead_encrypt ⟨p, ts, st.messagesSent, st.dhKeyPair.publicKey⟩
                 nonce (deriveMessageKey st.sendingKey st.messagesSent))
               st.dhKeyPair.seed⟩,
            { st with messagesSent := st.messagesSent + 1 }) := by
  unfold encryptMessage
  rw [if_neg (fun hc => absurd hc.2 (not_le.mpr hlow))]
  rfl

theorem decryptMessage_ok_of (st : RatchetState) (env : Envelope) (fs : Nat)
    (rp : PubKey)
    (hrp : st.remotePublicKey = some rp)
    (hsig1 : env.sig.signed = env.cipher)
    (hsig2 : PubKey.kx env.sig.signerSeed = rp)
    (hk : env.cipher.key = deriveMessageKey st.receivingKey st.messagesReceived)
    (hn : env.cipher.nonce = env.nonce)
    (hseen : (env.cipher.msg.counter, env.cipher.msg.timestamp) ∉ st.seenMessages)
    (hdh : env.cipher.msg.dhKey = rp) :
    decryptMessage st env fs =
      .ok (env.cipher.msg.content,
        { st with
          seenMessages :=
            (env.cipher.msg.counter, env.cipher.msg.timestamp) :: st.seenMessages
          messagesReceived := st.messagesReceived + 1 }) := by
  have hsig : crypto_sign_verify_detached env.sig env.cipher rp = true := by
    simp [crypto_sign_verify_detached, hsig1, hsig2]
  have ha : crypto_aead_decrypt env.cipher env.nonce
      (deriveMessageKey st.receivingKey st.messagesReceived) = some env.cipher.msg := by
    simp [crypto_aead_decrypt, hk, hn]
  simp only [decryptMessage, hrp, hsig, ha]
  rw [if_neg (by simp), if_neg hseen, if_pos hdh]

/-- Claim C1, amended: with mirrored chain key and counter, a stored
remote key matching the signer, a send counter below the rotation
bound, and a fresh (counter, timestamp) pair, decrypting the envelope
of encryptMessage returns exactly the plaintext. -/
theorem C1_roundtrip (stS stR : RatchetState) (p : List Nat)
    (fs fs2 nonce : Nat) (ts : Int)
    (hkey : stR.receivingKey = stS.sendingKey)
    (hctr : stR.messagesReceived = stS.messagesSent)
    (hpub : stR.remotePublicKey = some stS.dhKeyPair.publicKey)
    (hlow : stS.messagesSent < RATCHET_MESSAGES)
    (hseen : (stS.messagesSent, ts) ∉ stR.seenMessages) :
    ∃ env stS2 stR2,
      encryptMessage stS p false fs nonce ts = some (env, stS2) ∧
      decryptMessage stR env fs2 = .ok (p, stR2) := by
  refine ⟨_, _,
    { stR with
      seenMessages := (stS.messagesSent, ts) :: stR.seenMessages
      messagesReceived := stR.messagesReceived + 1 },
    encryptMessage_eq_of_low stS p fs nonce ts hlow, ?_⟩
  exact decryptMessage_ok_of stR _ fs2 stS.dhKeyPair.publicKey hpub rfl rfl
    (by rw [hkey, hctr]; rfl) rfl hseen rfl

/-- Claim C1 witness: the concrete mirrored pair round-trips the
plaintext [7]. -/
theorem C1_witness :
    ∃ env stS2 stR2,
      encryptMessage exSender [7] false 42 11 5 = some (env, stS2) ∧
      decryptMessage exReceiver env 0 = .ok ([7], stR2) :=
  C1_roundtrip exSender exReceiver [7] 42 0 11 5 (by decide) (by decide)
    (by decide) (by decide) (by decide)

/-- Claim C1 counterexample: the two states are mirrored exactly as
the claim requires, yet decryption fails with the replay error
because the receiver replay set already holds the id pair the
envelope happens to carry. -/
theorem C1_counterexample :
    exReceiverSeen.receivingKey = exSender.sendingKey ∧
    exReceiverSeen.messagesReceived = exSender.messagesSent ∧
    exReceiverSeen.remotePublicKey = some exSender.dhKeyPair.publicKey ∧
    encryptMessage exSender [7] false 42 11 5 =
      some (exEnv, { exSender with messagesSent := 1 }) ∧
    decryptMessage exReceiverSeen exEnv 0 = .error .replay := by decide

end CryptoWorker

namespace CryptoWorker

theorem decryptMessage_ok_inv (st : RatchetState) (env : Envelope) (fs : Nat)
    (rp : PubKey) (p : List Nat) (st2 : RatchetState)
    (hrp : st.remotePublicKey = some rp)
    (hdh : env.cipher.msg.dhKey = rp)
    (hdec : decryptMessage st env fs = .ok (p, st2)) :
    env.sig.signed = env.cipher ∧ PubKey.kx env.sig.signerSeed = rp ∧
    env.cipher.key = deriveMessageKey st.receivingKey st.messagesReceived ∧
    env.cipher.nonce = env.nonce ∧
    (env.cipher.msg.counter, env.cipher.msg.timestamp) ∉ st.seenMessages ∧
    p = env.cipher.msg.content ∧
    st2 = { st with
      seenMessages :=
        (env.cipher.msg.counter, env.cipher.msg.timestamp) :: st.seenMessages
      messagesReceived := st.messagesReceived + 1 } := by
  simp only [decryptMessage, hrp] at hdec
  by_cases hsig : crypto_sign_verify_detached env.sig env.cipher rp = false
  · rw [if_pos hsig] at hdec
    exact absurd hdec (by simp)
  · rw [if_neg hsig] at hdec
    have hsigp : env.sig.signed = env.cipher ∧ PubKey.kx env.sig.signerSeed = rp := by
      simpa [crypto_sign_verify_detached] using hsig
    cases ha : crypto_aead_decrypt env.cipher env.nonce
        (deriveMessageKey st.receivingKey st.messagesReceived) with
    | none =>
      simp only [ha] at hdec
      exact absurd hdec (by simp)
    | some message =>
      simp only [ha] at hdec
      have hmsg : env.cipher.key = deriveMessageKey st.receivingKey st.messagesReceived ∧
          env.cipher.nonce = env.nonce ∧ message = env.cipher.msg := by
        by_cases hc : env.cipher.key = deriveMessageKey st.receivingKey st.messagesReceived ∧
            env.cipher.nonce = env.nonce
        · unfold crypto_aead_decrypt at ha
          rw [if_pos hc] at ha
          exact ⟨hc.1, hc.2, (Option.some_inj.mp ha).symm⟩
        · unfold crypto_aead_decrypt at ha
          rw [if_neg hc] at ha
          exact absurd ha (by simp)
      obtain ⟨hk, hn, hm⟩ := hmsg
      subst hm
      by_cases hrep : (env.cipher.msg.counter, env.cipher.msg.timestamp) ∈ st.seenMessages
      · rw [if_pos hrep] at hdec
        exact absurd hdec (by simp)
      · rw [if_neg hrep, if_pos hdh] at hdec
        simp only [Except.ok.injEq, Prod.mk.injEq] at hdec
        refine ⟨hsigp.1, hsigp.2, hk, hn, hrep, hdec.1.symm, ?_⟩
        rw [← hdec.2, hrp]

/-- Claim C2, amended: replaying an envelope that was accepted
without a rotation fails, but with the AEAD authentication error
rather than the replay error: the message key is re-derived at the
advanced receive counter, so the replay branch is never reached for
that envelope.  The content is not returned either way. -/
theorem C2_replay_rejected (st st2 : RatchetState) (env : Envelope)
    (p : List Nat) (fs fs2 : Nat)
    (hrp : st.remotePublicKey = some env.cipher.msg.dhKey)
    (hdec : decryptMessage st env fs = .ok (p, st2)) :
    decryptMessage st2 env fs2 = .error .aeadFailure := by
  obtain ⟨hs1, hs2, hkey, hnonce, hseen, hp, hst2⟩ :=
    decryptMessage_ok_inv st env fs env.cipher.msg.dhKey p st2 hrp rfl hdec
  subst hst2
  have hsig : crypto_sign_verify_detached env.sig env.cipher env.cipher.msg.dhKey = true := by
    simp [crypto_sign_verify_detached, hs1, hs2]
  have ha : crypto_aead_decrypt env.cipher env.nonce
      (deriveMessageKey st.receivingKey (st.messagesReceived + 1)) = none := by
    simp only [crypto_aead_decrypt, hkey, deriveMessageKey]
    rw [if_neg]
    rintro ⟨hc, -⟩
    simp only [Key.kdf.injEq] at hc
    omega
  simp only [decryptMessage, hrp, hsig, ha]
  rw [if_neg (by simp)]

/-- Claim C2 witness: the concrete envelope accepted by the mirrored
receiver fails with the AEAD error when decrypted a second time. -/
theorem C2_witness :
    decryptMessage exReceiverAfter exEnv 0 = .error .aeadFailure :=
  C2_replay_rejected exReceiver exReceiverAfter exEnv [7] 0 0
    (by decide) (by decide)

/-- Claim C2 counterexample: after the concrete envelope is accepted
its id pair sits in the replay set, yet decrypting it again yields
the AEAD failure, not the replay error the claim names. -/
theorem C2_counterexample :
    decryptMessage exReceiver exEnv 0 = .ok ([7], exReceiverAfter) ∧
    (0, 5) ∈ exReceiverAfter.seenMessages ∧
    decryptMessage exReceiverAfter exEnv 0 = .error .aeadFailure ∧
    decryptMessage exReceiverAfter exEnv 0 ≠ .error .replay := by decide

/-- Claim C3: with at least RATCHET_MESSAGES sends on the counter and
a known remote key, a non-keep-alive encrypt first rotates — fresh
keypair, chain keys re-derived from the new shared secret, both
counters reset — and the envelope carries the new public key, which
differs from the previous one when the fresh seed is new. -/
theorem C3_rotation_on_full_counter (st : RatchetState) (p : List Nat)
    (fs nonce : Nat) (ts : Int) (rp : PubKey)
    (hrp : st.remotePublicKey = some rp)
    (hfull : RATCHET_MESSAGES ≤ st.messagesSent)
    (hfresh : fs ≠ st.dhKeyPair.seed) :
    (rotateWith st rp fs).messagesSent = 0 ∧
    (rotateWith st rp fs).messagesReceived = 0 ∧
    (rotateWith st rp fs).dhKeyPair = ⟨fs⟩ ∧
    (rotateWith st rp fs).rootKey = Key.kxRx fs rp ∧
    (rotateWith st rp fs).sendingKey = Key.kdf 1 "sending" (Key.kxRx fs rp) ∧
    (rotateWith st rp fs).receivingKey = Key.kdf 2 "receiving" (Key.kxRx fs rp) ∧
    ∃ env st2,
      encryptMessage st p false fs nonce ts = some (env, st2) ∧
      st2 = { rotateWith st rp fs with messagesSent := 1 } ∧
      env.cipher.msg.counter = 0 ∧
      env.cipher.msg.dhKey = PubKey.kx fs ∧
      env.cipher.msg.dhKey ≠ st.dhKeyPair.publicKey := by
  refine ⟨rfl, rfl, rfl, rfl, rfl, rfl, ?_⟩
  have henc : encryptMessage st p false fs nonce ts =
      some (⟨nonce,
             crypto_aead_encrypt ⟨p, ts, 0, PubKey.kx fs⟩ nonce
               (deriveMessageKey (Key.kdf 1 "sending" (Key.kxRx fs rp)) 0),
             crypto_sign_detached
               (crypto_aead_encrypt ⟨p, ts, 0, PubKey.kx fs⟩ nonce
                 (deriveMessageKey (Key.kdf 1 "sending" (Key.kxRx fs rp)) 0))
               fs⟩,
            { rotateWith st rp fs with messagesSent := 1 }) := by
    unfold encryptMessage
    rw [if_pos ⟨rfl, hfull⟩]
    simp only [rotateRatchet, hrp, Option.map_some]
    rfl
  refine ⟨_, _, henc, rfl, rfl, rfl, ?_⟩
  simp only [crypto_aead_encrypt, KeyPair.publicKey, ne_eq, PubKey.kx.injEq]
  exact hfresh

/-- Claim C3 witness: a sender with 100 messages sent rotates on the
next encrypt and emits the fresh public key. -/
theorem C3_witness :
    ∃ env st2,
      encryptMessage { exSender with messagesSent := 100 } [7] false 42 11 5 =
        some (env, st2) ∧
      st2 = { rotateWith { exSender with messagesSent := 100 } (.kx 9) 42 with
                messagesSent := 1 } ∧
      env.cipher.msg.counter = 0 ∧
      env.cipher.msg.dhKey = PubKey.kx 42 ∧
      env.cipher.msg.dhKey ≠ ({ exSender with messagesSent := 100 } : RatchetState).dhKeyPair.publicKey :=
  (C3_rotation_on_full_counter { exSender with messagesSent := 100 } [7] 42 11 5
    (.kx 9) (by decide) (by decide) (by decide)).2.2.2.2.2.2

end CryptoWorker

namespace CryptoWorker

/-- Claim C9: a keep-alive encrypt returns the ratchet state exactly
as it was — no counter advance, no rotation, no key change — and the
payload in the sealed message is the 32 random bytes drawn by the
keep-alive timer. -/
theorem C9_keepalive_preserves_state (st : RatchetState) (r : Nat → Nat)
    (fs nonce : Nat) (ts : Int) :
    ∃ env, keepAliveTick st r fs nonce ts = some (env, st) ∧
      env.cipher.msg.content = randombytes_buf 32 r ∧
      env.cipher.msg.content.length = 32 ∧
      env.cipher.msg.counter = st.messagesSent ∧
      env.cipher.msg.dhKey = st.dhKeyPair.publicKey := by
  refine ⟨_, rfl, rfl, ?_, rfl, rfl⟩
  simp [crypto_aead_encrypt, randombytes_buf]

/-- Claim C10: the per-message key decryptMessage uses is derived
only from the receiving chain key and the local receive counter, so
an envelope sealed at sender counter c opens only when the local
counter equals c, and a counter mismatch fails AEAD authentication
before the replay check. -/
theorem C10_counter_binds_key (stS stR : RatchetState) (p : List Nat)
    (fs fs2 nonce : Nat) (ts : Int) (env : Envelope) (stS2 : RatchetState)
    (_hkey : stR.receivingKey = stS.sendingKey)
    (hpub : stR.remotePublicKey = some stS.dhKeyPair.publicKey)
    (hlow : stS.messagesSent < RATCHET_MESSAGES)
    (henc : encryptMessage stS p false fs nonce ts = some (env, stS2)) :
    (∀ q stR2, decryptMessage stR env fs2 = .ok (q, stR2) →
      stR.messagesReceived = stS.messagesSent) ∧
    (stR.messagesReceived ≠ stS.messagesSent →
      decryptMessage stR env fs2 = .error .aeadFailure) := by
  rw [encryptMessage_eq_of_low stS p fs nonce ts hlow] at henc
  simp only [Option.some.injEq, Prod.mk.injEq] at henc
  obtain ⟨henv, -⟩ := henc
  subst henv
  constructor
  · intro q stR2 hdec
    obtain ⟨-, -, hk, -, -, -, -⟩ :=
      decryptMessage_ok_inv stR _ fs2 stS.dhKeyPair.publicKey q stR2 hpub rfl hdec
    simp only [crypto_aead_encrypt, deriveMessageKey, Key.kdf.injEq] at hk
    exact hk.1.symm
  · intro hne
    have hsig : crypto_sign_verify_detached
        (crypto_sign_detached
          (crypto_aead_encrypt ⟨p, ts, stS.messagesSent, stS.dhKeyPair.publicKey⟩
            nonce (deriveMessageKey stS.sendingKey stS.messagesSent))
          stS.dhKeyPair.seed)
        (crypto_aead_encrypt ⟨p, ts, stS.messagesSent, stS.dhKeyPair.publicKey⟩
          nonce (deriveMessageKey stS.sendingKey stS.messagesSent))
        stS.dhKeyPair.publicKey = true := by
      simp [crypto_sign_verify_detached, crypto_sign_detached, KeyPair.publicKey]
    have ha : crypto_aead_decrypt
        (crypto_aead_encrypt ⟨p, ts, stS.messagesSent, stS.dhKeyPair.publicKey⟩
          nonce (deriveMessageKey stS.sendingKey stS.messagesSent))
        nonce (deriveMessageKey stR.receivingKey stR.messagesReceived) = none := by
      simp only [crypto_aead_decrypt, crypto_aead_encrypt, deriveMessageKey]
      rw [if_neg]
      rintro ⟨hc, -⟩
      simp only [Key.kdf.injEq] at hc
      exact hne hc.1.symm
    simp only [decryptMessage, hpub, hsig, ha]
    rw [if_neg (by simp)]

/-- Claim C10 witness: with the receiver counter advanced to 1 while
the envelope was sealed at counter 0, decryption fails with the AEAD
error. -/
theorem C10_witness :
    decryptMessage { exReceiver with messagesReceived := 1 } exEnv 0 =
      .error .aeadFailure :=
  (C10_counter_binds_key exSender { exReceiver with messagesReceived := 1 }
    [7] 42 0 11 5 exEnv { exSender with messagesSent := 1 }
    (by decide) (by decide) (by decide) (by decide)).2 (by decide)

end CryptoWorker

/-- Claim C4, evaluated at a concrete rotation: the buffers that held
the pre-rotation sending and receiving chain keys (and the old root)
still hold their key bytes afterwards — rotateRatchet never calls
wipeKey, so nothing is overwritten with zeros. -/
theorem C4_rotation_leaves_old_chain_keys :
    (WorkerMem.rotateRatchet WorkerMem.exWorld 7).mem 1 =
      .key (.kdf 1 "sending" (.raw 0)) ∧
    (WorkerMem.rotateRatchet WorkerMem.exWorld 7).mem 1 ≠ .zeros ∧
    (WorkerMem.rotateRatchet WorkerMem.exWorld 7).mem 2 =
      .key (.kdf 2 "receiving" (.raw 0)) ∧
    (WorkerMem.rotateRatchet WorkerMem.exWorld 7).mem 2 ≠ .zeros ∧
    (WorkerMem.rotateRatchet WorkerMem.exWorld 7).mem 0 = .key (.raw 0) ∧
    (WorkerMem.rotateRatchet WorkerMem.exWorld 7).mem
      (WorkerMem.rotateRatchet WorkerMem.exWorld 7).ratchet.rootKey =
      .key (.kxRx 7 (.kx 9)) := by decide

/-- Claim C5, evaluated at a concrete cleanup: the root and both
chain-key buffers read as zeros, but the buffer holding the local DH
private key is untouched and still reads the key bytes. -/
theorem C5_cleanup_leaves_dh_private_key :
    (WorkerMem.cleanup WorkerMem.exWorld).mem 0 = .zeros ∧
    (WorkerMem.cleanup WorkerMem.exWorld).mem 1 = .zeros ∧
    (WorkerMem.cleanup WorkerMem.exWorld).mem 2 = .zeros ∧
    (WorkerMem.cleanup WorkerMem.exWorld).mem 4 = .priv 5 ∧
    (WorkerMem.cleanup WorkerMem.exWorld).mem 4 ≠ .zeros := by decide

namespace NetworkMgr

/-- Claim C6: while a socket is unverified, a frame that decodes to
any non-verification type is dropped without any state change or
effect: nothing is delivered and no keepalive_ack is written. -/
theorem C6_unverified_frames_dropped (st : NMState) (sock : Nat)
    (data payload : List Nat) (decode : List Nat → Option NetMsg)
    (now : Int) (m : NetMsg)
    (hunp : removePacketPadding data = .ok payload)
    (hdecode : decode payload = some m)
    (hver : m.isVerificationMsg = false)
    (hunv : sock ∉ st.verifiedPeers) :
    handleIncomingData st sock data decode now = (st, []) := by
  unfold handleIncomingData
  rw [hunp]
  simp only [hdecode]
  cases m with
  | verificationChallenge ch => simp [NetMsg.isVerificationMsg] at hver
  | verificationResponse resp => simp [NetMsg.isVerificationMsg] at hver
  | verificationSuccess t => simp [handleIncomingMessage, hunv]
  | keepalive t => simp [handleIncomingMessage, hunv]
  | keepaliveAck t => simp [handleIncomingMessage, hunv]
  | appMessage n => simp [handleIncomingMessage, hunv]

/-- Claim C6 witness: an unverified socket sending a well-formed
keepalive frame gets nothing back and nothing delivered. -/
theorem C6_witness :
    handleIncomingData exNM 0 (padPacket [1])
      (fun _ => some (.keepalive 0)) 0 = (exNM, []) :=
  C6_unverified_frames_dropped exNM 0 (padPacket [1]) [1]
    (fun _ => some (.keepalive 0)) 0 (.keepalive 0)
    (by decide) rfl rfl (by decide)

/-- Claim C7: padPacket emits the 4-byte big-endian length prefix,
the payload, and zero padding to the next 256-byte boundary, so every
frame length is divisible by 256. -/
theorem C7_frames_bucket_padded (data : List Nat)
    (h : data.length < 2 ^ 32) :
    padPacket data =
      writeUInt32BE data.length ++ data ++
        List.replicate
          ((4 + data.length + 255) / 256 * 256 - (4 + data.length)) 0 ∧
    (padPacket data).length % 256 = 0 := by
  constructor
  · rfl
  · simp only [padPacket, writeUInt32BE, PACKET_SIZE, List.length_append,
      List.length_replicate, List.length_cons, List.length_nil]
    omega

/-- Claim C7 witness: a 3-byte payload frames to a single 256-byte
bucket. -/
theorem C7_witness :
    ([1, 2, 3] : List Nat).length < 2 ^ 32 ∧
    (padPacket [1, 2, 3]).length % 256 = 0 :=
  ⟨by decide, (C7_frames_bucket_padded [1, 2, 3] (by decide)).2⟩

/-- Claim C8: unframing rejects frames shorter than the 4-byte prefix
and frames whose declared length exceeds the bytes available after
the prefix, with the codec error in each case. -/
theorem C8_unframe_rejects_bad_length (data : List Nat) :
    (data.length < 4 →
      removePacketPadding data =
        .error "Invalid packet: too short for length prefix") ∧
    (4 ≤ data.length → data.length - 4 < readUInt32BE data →
      removePacketPadding data =
        .error "Invalid packet: length prefix exceeds data size") := by
  constructor
  · intro h
    unfold removePacketPadding
    rw [if_pos h]
  · intro h4 hlen
    unfold removePacketPadding
    rw [if_neg (by omega), if_pos hlen]

/-- Claim C8 witness: a 2-byte frame is too short, and a frame
declaring 9 payload bytes with only 1 available is rejected. -/
theorem C8_witness :
    ([0, 0] : List Nat).length < 4 ∧
    removePacketPadding [0, 0] =
      .error "Invalid packet: too short for length prefix" ∧
    ([0, 0, 0, 9, 1] : List Nat).length - 4 < readUInt32BE [0, 0, 0, 9, 1] ∧
    removePacketPadding [0, 0, 0, 9, 1] =
      .error "Invalid packet: length prefix exceeds data size" :=
  ⟨by decide, (C8_unframe_rejects_bad_length [0, 0]).1 (by decide),
   by decide,
   (C8_unframe_rejects_bad_length [0, 0, 0, 9, 1]).2 (by decide) (by decide)⟩

end NetworkMgr
